import Mathlib

/-!
Verification of the RBAC-UI authorization core: the permission evaluator
(hasPermission from lib/auth.js as shown in the security and development
guides), the guarded server-action patterns (actionName, protectedAction),
the entity-service operations (deleteComment, assignPermission), the blogs
search page and the update-blog access check.

JavaScript semantics is embedded shallowly: possibly-absent values are
Option, the value of a permission-check expression is a JSVal (a boolean
or undefined), a thrown exception is the thrown constructor of Outcome,
and member access on an absent object yields a TypeError.
-/

namespace RBAC

/-- Value of a JavaScript boolean-ish expression: a boolean or undefined. -/
inductive JSVal where
  | vBool (b : Bool)
  | vUndefined
deriving DecidableEq

/-- JavaScript truthiness restricted to the values a permission check yields:
true is truthy, false and undefined are falsy. -/
def truthy : JSVal → Bool
  | .vBool b => b
  | .vUndefined => false

/-- Session user as documented in the API session structure: id, email,
username, role (ADMIN, EDITOR or USER as a string), and an optional
permission list (the permissions field may be absent from a token). -/
structure User where
  id : String
  username : String
  email : String
  role : String
  permissions : Option (List String)
deriving DecidableEq

/-- Body of hasPermission from lib/auth.js for a present user:
the expression user.role === "ADMIN" || user.permissions?.includes(permission).
When the role is ADMIN the disjunction short-circuits to the boolean true;
otherwise the optional chaining yields undefined when permissions is absent,
and the boolean membership test when it is present. -/
def hasPermissionVal (user : User) (permission : String) : JSVal :=
  if user.role = "ADMIN" then .vBool true
  else
    match user.permissions with
    | none => .vUndefined
    | some ps => .vBool (ps.contains permission)

/-- hasPermission applied to a possibly-absent user. Reading user.role on a
null or undefined user throws a TypeError, modelled as the error case. -/
def hasPermission (user : Option User) (permission : String) :
    Except String JSVal :=
  match user with
  | none => .error "TypeError"
  | some u => .ok (hasPermissionVal u permission)

/-- Typed result object returned by a server action: a success envelope
carrying the data, or an error envelope carrying a message. -/
inductive ActionResult (α : Type) where
  | success (data : α)
  | error (message : String)
deriving DecidableEq

/-- Outcome of running a JavaScript function body: a normally returned value
or a thrown exception carrying its message. -/
inductive Outcome (α : Type) where
  | returned (value : α)
  | thrown (message : String)
deriving DecidableEq

/-- Guarded server-action pattern actionName from the development guide:
when the session is absent or the permission check is falsy it returns the
Unauthorized error object; otherwise it runs the wrapped persistence
operation inside try/catch, returning the success envelope with the result
data, or the generic Operation failed error when the operation throws.
The second component counts how many times the wrapped operation ran
(the call-count spy); every path returns normally, nothing is rethrown. -/
def actionName (session : Option User) (requiredPermission : String)
    (operation : Except String α) : Outcome (ActionResult α) × Nat :=
  match session with
  | none => (.returned (.error "Unauthorized"), 0)
  | some u =>
    if truthy (hasPermissionVal u requiredPermission) then
      match operation with
      | .ok result => (.returned (.success result), 1)
      | .error _ => (.returned (.error "Operation failed"), 1)
    else (.returned (.error "Unauthorized"), 0)

/-- Guarded server-action pattern protectedAction from the security
documentation: throws Authentication required when the session is absent and
Insufficient permissions when the permission check is falsy; otherwise the
protected operation proceeds and its value is returned. -/
def protectedAction (session : Option User) (requiredPermission : String)
    (operation : α) : Outcome α :=
  match session with
  | none => .thrown "Authentication required"
  | some u =>
    if truthy (hasPermissionVal u requiredPermission) then .returned operation
    else .thrown "Insufficient permissions"

/-- Comment entity: id, text, author reference and blog reference. -/
structure Comment where
  id : String
  text : String
  authorId : String
  blogId : String
deriving DecidableEq

/-- Modelled from the spec: the deleteComment entity-service implementation
(actions/actions.js) is not among the provided sources, only its API
documentation; per the spec it succeeds exactly when the identity id equals
the comment authorId (author-only ownership rule, independent of role and
permissions), and is denied otherwise. -/
def deleteComment (identity : User) (comment : Comment) :
    Except String Unit :=
  if identity.id = comment.authorId then .ok () else .error "Denied"

/-- Modelled from the spec: the assignPermission entity-service
implementation (actions/actions.js) is not among the provided sources, only
its API documentation; per the spec it requires the ADMIN role and adds the
capability to the target permission set if absent, as a no-op when already
held (idempotent). -/
def assignPermission (identity : User) (target : User) (capability : String) :
    Except String User :=
  if identity.role = "ADMIN" then
    let ps := target.permissions.getD []
    if ps.contains capability then .ok target
    else .ok { target with permissions := some (ps ++ [capability]) }
  else .error "Denied"

/-- Blog entity per the documented schema (engagement counters omitted as
they play no role in any query considered here). -/
structure Blog where
  id : String
  title : String
  description : String
  category : String
  tags : List String
  authorId : String
  imageUrl : Option String
  published : Bool
deriving DecidableEq

/-- Case folding used to model the insensitive mode of the Prisma contains
filter: the character sequence of the string, lower-cased. -/
def ciNorm (s : String) : List Char := s.data.map Char.toLower

/-- Case-insensitive substring test modelling a Prisma contains filter with
insensitive mode: the folded query occurs inside the folded field. -/
def ciContains (s q : String) : Bool := decide (ciNorm q <:+: ciNorm s)

/-- Blogs listing page (app/blogs/page.jsx): the query parameter defaults to
the empty string when absent; a falsy (empty) query fetches all blogs,
otherwise findMany keeps the blogs whose title or category contains the
query case-insensitively. -/
def Blogs (allBlogs : List Blog) (searchQuery : Option String) : List Blog :=
  let query := searchQuery.getD ""
  if query = "" then allBlogs
  else allBlogs.filter fun b => ciContains b.title query || ciContains b.category query

/-- Session wrapper: the session object carries the user. -/
structure Session where
  user : User
deriving DecidableEq

/-- Result of rendering the update-blog access-checked page: a redirect to a
path, or the page content. -/
inductive PageResult where
  | redirected (path : String)
  | content
deriving DecidableEq

/-- JavaScript String.prototype.includes: substring containment. -/
def jsIncludes (s sub : String) : Bool := decide (sub.data <:+: s.data)

/-- Role-gated Page from the update-blog guide: redirects to the root path
unless EDIT_BLOG occurs as a substring of session.user.role; an absent
session (undefined role access through optional chaining) is falsy and
redirects as well. -/
def Page (session : Option Session) : PageResult :=
  match session with
  | none => .redirected "/"
  | some s =>
    if jsIncludes s.user.role "EDIT_BLOG" then .content
    else .redirected "/"

/-- C1: for every identity whose role is ADMIN, hasPermission returns the
boolean true for every capability argument, regardless of the contents of
the permission list, including when it is absent or empty. -/
theorem admin_hasPermission_true (u : User) (cap : String)
    (h : u.role = "ADMIN") :
    hasPermission (some u) cap = Except.ok (JSVal.vBool true) := by
  simp [hasPermission, hasPermissionVal, h]

/-- C1 witness: a concrete ADMIN identity with an empty permission list is
granted an arbitrary capability. -/
theorem admin_hasPermission_true_wit :
    hasPermission (some ⟨"u1", "alice", "alice@x", "ADMIN", some []⟩)
      "DELETE_EVERYTHING" = Except.ok (JSVal.vBool true) :=
  admin_hasPermission_true _ _ (by decide)

/-- C2: for every identity whose role is not ADMIN, hasPermission returns
the boolean true exactly when the capability is an element of the identity
permission list (an absent list holding nothing). -/
theorem nonadmin_hasPermission_iff (u : User) (cap : String)
    (h : u.role ≠ "ADMIN") :
    (hasPermission (some u) cap = Except.ok (JSVal.vBool true) ↔
      cap ∈ u.permissions.getD []) := by
  cases hp : u.permissions with
  | none => simp [hasPermission, hasPermissionVal, h, hp]
  | some ps => simp [hasPermission, hasPermissionVal, h, hp]

/-- C2 witness: a concrete USER identity holding CREATE_BLOG is granted
CREATE_BLOG. -/
theorem nonadmin_hasPermission_iff_wit :
    hasPermission (some ⟨"u2", "bob", "bob@x", "USER", some ["CREATE_BLOG"]⟩)
      "CREATE_BLOG" = Except.ok (JSVal.vBool true) :=
  (nonadmin_hasPermission_iff _ _ (by decide)).mpr (by decide)

/-- C3 counterexample: with an allowed ADMIN session and a wrapped operation
that fails internally with the message boom, the guard returns the generic
Operation failed error object, not the operation failure unchanged, so the
pass-through clause of the claim fails at this input. -/
theorem guard_passthrough_cex :
    actionName (some ⟨"u1", "alice", "alice@x", "ADMIN", some []⟩)
        "CREATE_BLOG" (Except.error "boom" : Except String Nat)
      = (Outcome.returned (ActionResult.error "Operation failed"), 1) ∧
    (Outcome.returned (ActionResult.error "Operation failed"), 1) ≠
      ((Outcome.returned (ActionResult.error "boom") :
          Outcome (ActionResult Nat)), 1) := by
  constructor
  · rfl
  · decide

/-- C3 amended: when the permission check denies (absent session or falsy
check), the guard returns the Unauthorized denial object and the wrapped
operation is never invoked (spy count zero, no state change); when it
allows, the operation runs exactly once and a success result is passed
through unchanged, while an internal failure is reported as the generic
Operation failed error object rather than the original failure. -/
theorem guard_passthrough {α : Type} (u : User) (p : String)
    (op : Except String α) :
    actionName (none : Option User) p op
        = (.returned (.error "Unauthorized"), 0) ∧
    (truthy (hasPermissionVal u p) = false →
      actionName (some u) p op = (.returned (.error "Unauthorized"), 0)) ∧
    (truthy (hasPermissionVal u p) = true →
      (∀ r, op = .ok r →
        actionName (some u) p op = (.returned (.success r), 1)) ∧
      (∀ e, op = .error e →
        actionName (some u) p op
          = (.returned (.error "Operation failed"), 1))) := by
  refine ⟨rfl, ?_, ?_⟩
  · intro h
    simp [actionName, h]
  · intro h
    refine ⟨?_, ?_⟩
    · intro r hr
      simp [actionName, h, hr]
    · intro e he
      simp [actionName, h, he]

/-- C3 witness: a concrete allowed session passes the success value through
with the operation invoked once. -/
theorem guard_passthrough_wit :
    actionName (some ⟨"u1", "alice", "alice@x", "ADMIN", some []⟩) "P"
        (Except.ok (5 : Nat))
      = (Outcome.returned (ActionResult.success 5), 1) :=
  ((guard_passthrough ⟨"u1", "alice", "alice@x", "ADMIN", some []⟩ "P"
      (Except.ok 5)).2.2 (by decide)).1 5 rfl

/-- C4 counterexample: the permission check on an absent identity throws a
TypeError rather than returning the boolean false. -/
theorem absent_identity_cex :
    hasPermission none "READ_BLOG" ≠ Except.ok (JSVal.vBool false) ∧
    hasPermission none "READ_BLOG" = Except.error "TypeError" := by
  constructor
  · simp [hasPermission]
  · rfl

/-- C4 amended: for every capability the permission check on an absent
identity throws a TypeError (it is not total there, and in particular never
returns true); the guarded action pattern denies an absent session with the
Unauthorized object before hasPermission is reached, without invoking the
wrapped operation. -/
theorem absent_identity_throws (cap : String) (op : Except String Nat) :
    hasPermission none cap = Except.error "TypeError" ∧
    hasPermission none cap ≠ Except.ok (JSVal.vBool true) ∧
    actionName (none : Option User) cap op
      = (.returned (.error "Unauthorized"), 0) := by
  exact ⟨rfl, by simp [hasPermission], rfl⟩

/-- C5 counterexample: a present USER session lacking the capability makes
protectedAction throw Insufficient permissions across the boundary, so the
Denied condition is not reported as a typed return value by this guarded
operation. -/
theorem typed_outcomes_cex :
    protectedAction (some ⟨"u3", "carol", "carol@x", "USER", some []⟩)
        "CREATE_BLOG" (0 : Nat)
      = Outcome.thrown "Insufficient permissions" := by
  decide

/-- C5 amended: the actionName guarded pattern reports every expected
condition (unauthenticated, denied, operation failure) as a typed returned
value and never throws; the protectedAction pattern instead throws
Authentication required on an absent session and Insufficient permissions
on a denied one. -/
theorem typed_outcomes (s : Option User) (p : String)
    (op : Except String Nat) (u : User) :
    (∃ r, (actionName s p op).1 = Outcome.returned r) ∧
    protectedAction (none : Option User) p (0 : Nat)
      = Outcome.thrown "Authentication required" ∧
    (truthy (hasPermissionVal u p) = false →
      protectedAction (some u) p (0 : Nat)
        = Outcome.thrown "Insufficient permissions") := by
  refine ⟨?_, rfl, ?_⟩
  · cases s with
    | none => exact ⟨.error "Unauthorized", rfl⟩
    | some v =>
      by_cases h : truthy (hasPermissionVal v p) = true
      · cases op with
        | ok r => exact ⟨.success r, by simp [actionName, h]⟩
        | error e => exact ⟨.error "Operation failed", by simp [actionName, h]⟩
      · exact ⟨.error "Unauthorized", by simp [actionName, h]⟩
  · intro h
    simp [protectedAction, h]

/-- C5 witness: at a concrete denied USER session the protectedAction
variant throws while actionName returns a typed value. -/
theorem typed_outcomes_wit :
    protectedAction (some ⟨"u3", "carol", "carol@x", "USER", some []⟩) "P"
        (0 : Nat)
      = Outcome.thrown "Insufficient permissions" :=
  (typed_outcomes none "P" (Except.ok 0)
    ⟨"u3", "carol", "carol@x", "USER", some []⟩).2.2 (by decide)

/-- C6: deleteComment succeeds exactly when the identity id equals the
comment authorId; any identity whose id differs, its role (ADMIN included)
and permissions notwithstanding, is denied. -/
theorem deleteComment_ownership (identity : User) (comment : Comment) :
    (deleteComment identity comment = Except.ok () ↔
      identity.id = comment.authorId) ∧
    (identity.id ≠ comment.authorId →
      deleteComment identity comment = Except.error "Denied") := by
  constructor
  · constructor
    · intro h
      by_contra hne
      simp [deleteComment, hne] at h
    · intro h
      simp [deleteComment, h]
  · intro h
    simp [deleteComment, h]

/-- C6 witness: a concrete ADMIN identity whose id differs from the comment
author is denied. -/
theorem deleteComment_ownership_wit :
    deleteComment ⟨"u9", "dana", "dana@x", "ADMIN", some []⟩
        ⟨"c1", "hi", "u7", "b1"⟩
      = Except.error "Denied" :=
  (deleteComment_ownership ⟨"u9", "dana", "dana@x", "ADMIN", some []⟩
    ⟨"c1", "hi", "u7", "b1"⟩).2 (by decide)

/-- C7: assignPermission by an ADMIN is idempotent; assigning twice leaves
the target permission list containing the capability exactly once, and
assigning an already-held capability succeeds as a no-op on the target
(given the documented invariant that the permission list is duplicate-free). -/
theorem assignPermission_idempotent (admin target : User) (cap : String)
    (hAdmin : admin.role = "ADMIN")
    (hSet : (target.permissions.getD []).Nodup) :
    ∃ u1 u2,
      assignPermission admin target cap = Except.ok u1 ∧
      assignPermission admin u1 cap = Except.ok u2 ∧
      List.count cap (u2.permissions.getD []) = 1 ∧
      (cap ∈ target.permissions.getD [] → u1 = target ∧ u2 = target) := by
  by_cases h : cap ∈ target.permissions.getD []
  · refine ⟨target, target, ?_, ?_, ?_, fun _ => ⟨rfl, rfl⟩⟩
    · simp [assignPermission, hAdmin, h]
    · simp [assignPermission, hAdmin, h]
    · exact List.count_eq_one_of_mem hSet h
  · refine ⟨{ target with
        permissions := some (target.permissions.getD [] ++ [cap]) },
      { target with
        permissions := some (target.permissions.getD [] ++ [cap]) },
      ?_, ?_, ?_, fun hmem => absurd hmem h⟩
    · simp [assignPermission, hAdmin, h]
    · simp [assignPermission, hAdmin]
    · simp [List.count_append, List.count_eq_zero.mpr h]

/-- C7 witness: an ADMIN assigning CREATE_BLOG twice to a user that lacks
it yields a permission list holding CREATE_BLOG exactly once. -/
theorem assignPermission_idempotent_wit :
    ∃ u1 u2,
      assignPermission ⟨"u1", "alice", "alice@x", "ADMIN", some []⟩
          ⟨"u5", "eve", "eve@x", "USER", some []⟩ "CREATE_BLOG"
        = Except.ok u1 ∧
      assignPermission ⟨"u1", "alice", "alice@x", "ADMIN", some []⟩ u1
          "CREATE_BLOG"
        = Except.ok u2 ∧
      List.count "CREATE_BLOG" (u2.permissions.getD []) = 1 ∧
      ("CREATE_BLOG" ∈
          (⟨"u5", "eve", "eve@x", "USER", some []⟩ : User).permissions.getD []
        → u1 = ⟨"u5", "eve", "eve@x", "USER", some []⟩ ∧
          u2 = ⟨"u5", "eve", "eve@x", "USER", some []⟩) :=
  assignPermission_idempotent _ _ "CREATE_BLOG" (by decide) (by decide)

/-- C8: a stored blog is returned by the blogs page search for a non-empty
query exactly when the case-folded query occurs as a contiguous substring
of the case-folded title or of the case-folded category. -/
theorem blogs_search_ci (allBlogs : List Blog) (b : Blog) (q : String)
    (hq : q ≠ "") :
    (b ∈ Blogs allBlogs (some q) ↔
      b ∈ allBlogs ∧
        ((∃ l r, l ++ ciNorm q ++ r = ciNorm b.title) ∨
         (∃ l r, l ++ ciNorm q ++ r = ciNorm b.category))) := by
  simp [Blogs, hq, List.mem_filter, ciContains, List.IsInfix]

/-- C8 witness: the query TECH returns a stored blog whose category is
technology. -/
theorem blogs_search_ci_wit :
    (⟨"b1", "Intro", "d", "technology", [], "u1", none, true⟩ : Blog) ∈
      Blogs [⟨"b1", "Intro", "d", "technology", [], "u1", none, true⟩]
        (some "TECH") :=
  (blogs_search_ci _ _ "TECH" (by decide)).mpr
    ⟨List.mem_singleton.mpr rfl,
     Or.inr ⟨[], ['n', 'o', 'l', 'o', 'g', 'y'], by decide⟩⟩

/-- C9: the update-blog access check tests EDIT_BLOG as a substring of the
role string rather than consulting the permission list, so every session
whose role is one of the declared roles ADMIN, EDITOR or USER is redirected
to the root path, its permissions notwithstanding. -/
theorem update_blog_role_check_denies (u : User)
    (h : u.role = "ADMIN" ∨ u.role = "EDITOR" ∨ u.role = "USER") :
    Page (some ⟨u⟩) = PageResult.redirected "/" := by
  have hin : jsIncludes u.role "EDIT_BLOG" = false := by
    rcases h with h | h | h <;> rw [h] <;> decide
  simp [Page, hin]

/-- C9 witness: even an ADMIN session whose permission list holds EDIT_BLOG
is redirected by the role-substring check. -/
theorem update_blog_role_check_denies_wit :
    Page (some ⟨⟨"u1", "alice", "alice@x", "ADMIN", some ["EDIT_BLOG"]⟩⟩)
      = PageResult.redirected "/" :=
  update_blog_role_check_denies _ (Or.inl rfl)

/-- C10: for a non-ADMIN user with an absent permissions field the check
evaluates to the undefined value, a falsy non-boolean; the check yields an
actual boolean exactly when the role is ADMIN or the permission list is
present. -/
theorem hasPermission_can_be_undefined (u : User) (cap : String) :
    (u.role ≠ "ADMIN" → u.permissions = none →
      hasPermission (some u) cap = Except.ok JSVal.vUndefined ∧
      truthy JSVal.vUndefined = false) ∧
    ((∃ b, hasPermission (some u) cap = Except.ok (JSVal.vBool b)) ↔
      (u.role = "ADMIN" ∨ u.permissions ≠ none)) := by
  constructor
  · intro h hp
    exact ⟨by simp [hasPermission, hasPermissionVal, h, hp], rfl⟩
  · constructor
    · rintro ⟨b, hb⟩
      by_contra hc
      push_neg at hc
      obtain ⟨h1, h2⟩ := hc
      simp [hasPermission, hasPermissionVal, h1, h2] at hb
    · rintro (h | h)
      · exact ⟨true, by simp [hasPermission, hasPermissionVal, h]⟩
      · cases hp : u.permissions with
        | none => exact absurd hp h
        | some ps =>
          by_cases hr : u.role = "ADMIN"
          · exact ⟨true, by simp [hasPermission, hasPermissionVal, hr]⟩
          · exact ⟨ps.contains cap,
              by simp [hasPermission, hasPermissionVal, hr, hp]⟩

/-- C10 witness: a concrete USER identity without a permissions field gets
the undefined value from the check. -/
theorem hasPermission_can_be_undefined_wit :
    hasPermission (some ⟨"u6", "frank", "frank@x", "USER", none⟩)
        "CREATE_BLOG" = Except.ok JSVal.vUndefined ∧
      truthy JSVal.vUndefined = false :=
  (hasPermission_can_be_undefined ⟨"u6", "frank", "frank@x", "USER", none⟩
    "CREATE_BLOG").1 (by decide) rfl

end RBAC
